import Mathlib

/-
Shallow embedding of the greengold virtual machine (src/src/lib.rs):
a Forth-like bytecode interpreter with a typed operand stack (64-bit
integers and 64-bit floats), a return-address stack, a literal
accumulator, a modularly-addressed memory array and a pluggable
extension point for unknown opcodes.

Modelling conventions:
* `i64` values are integers; `+`, `-`, `*` and the literal accumulator
  use two's-complement wrap-around (`wrap64`, release-profile Rust
  semantics); `/` and `%` are truncating and panic on a zero divisor
  and on `i64::MIN / -1`, as in every Rust profile.
* `f64` payloads are modelled as rationals: the claims under study use
  floats only through their tag, their operand order and exact small
  values, never through IEEE rounding, infinities or NaN.
* `usize` casts of an `i64` use the two's-complement conversion
  `toUsize` (64-bit platform).
* A Rust panic (integer division by zero, `% 0` on `usize` for an
  empty memory) is the distinguished outcome `panic`, separate from
  the `Result`-level errors.
* The stack methods mutate `self` even when they fail, so each
  operation returns its outcome together with the post-call stack.
-/

/-- Error kinds of the VM (`enum Error`, lib.rs:13-18). -/
inductive Error where
  | StackUnderflow
  | TypeMismatch
  | InvalidInstruction
deriving DecidableEq, Repr

/-- A piece of Forth data, either an int or a float (`enum Data`, lib.rs:44-49).
The `f64` payload is modelled as a rational. -/
inductive Data where
  | Int (n : ℤ)
  | Float (q : ℚ)
deriving DecidableEq, Repr

/-- A homogeneous pair of `Data` (`enum Pair`, lib.rs:51-56). -/
inductive Pair where
  | Int (x y : ℤ)
  | Float (x y : ℚ)
deriving DecidableEq, Repr

/-- Lower bound of `i64`. -/
def i64min : ℤ := -(2 ^ 63)

/-- Upper bound of `i64`. -/
def i64max : ℤ := 2 ^ 63 - 1

/-- Two's-complement wrap-around into the `i64` range. -/
def wrap64 (n : ℤ) : ℤ := (n + 2 ^ 63) % 2 ^ 64 - 2 ^ 63

/-- The Rust cast `n as usize` of an `i64` on a 64-bit platform:
two's-complement reinterpretation. -/
def toUsize (n : ℤ) : ℕ := (n % 2 ^ 64).toNat

/-- Truncation of a rational toward zero (used for `f64 as i64` and the
float remainder). -/
def qtrunc (q : ℚ) : ℤ := Int.tdiv q.num (q.den : ℤ)

/-- The Rust cast `q as i64` of a float: truncation toward zero,
saturating at the `i64` bounds. -/
def f2i (q : ℚ) : ℤ := max i64min (min i64max (qtrunc q))

/-- Rust `a % b` on floats: remainder with the sign of the dividend,
`a - b * trunc(a / b)`, transported to the rational model. -/
def fRem (a b : ℚ) : ℚ := a - b * (qtrunc (a / b) : ℚ)

/-- The operand stack (`struct Stack`, lib.rs:59-61), top element first. -/
abbrev Stack : Type := List Data

/-- Outcome of one stack method.  The Rust methods mutate `self` and
return a `Result`; a failing method can already have consumed values,
so the outcome carries the post-call stack.  `panic` is a Rust runtime
panic, which aborts instead of returning. -/
inductive OpRes (α : Type) where
  | ok (a : α) (s : Stack)
  | err (e : Error) (s : Stack)
  | panic
deriving DecidableEq

/-- `Stack::pop` (lib.rs:82-87). -/
def Stack.pop : Stack → OpRes Data
  | [] => .err .StackUnderflow []
  | v :: rest => .ok v rest

/-- `Stack::push` (lib.rs:77-79). -/
def Stack.push (s : Stack) (v : Data) : Stack := v :: s

/-- `Stack::pop_two` (lib.rs:90-106): pops `a` (top) then `b`; underflow
checks come first, then the tag comparison.  Both pops have happened
before any failure other than the empty-stack one is reported. -/
def Stack.pop_two : Stack → OpRes Pair
  | [] => .err .StackUnderflow []
  | [_] => .err .StackUnderflow []
  | a :: b :: rest =>
    match a, b with
    | .Float x, .Float y => .ok (.Float x y) rest
    | .Int x, .Int y => .ok (.Int x y) rest
    | .Float _, .Int _ => .err .TypeMismatch rest
    | .Int _, .Float _ => .err .TypeMismatch rest

/-- `Stack::cast_to_int` (lib.rs:109-123). -/
def Stack.cast_to_int (s : Stack) : OpRes Unit :=
  match s.pop with
  | .err e s1 => .err e s1
  | .panic => .panic
  | .ok v s1 =>
    match v with
    | .Int n => .ok () (s1.push (.Int n))
    | .Float q => .ok () (s1.push (.Int (f2i q)))

/-- `Stack::cast_to_float` (lib.rs:126-140). -/
def Stack.cast_to_float (s : Stack) : OpRes Unit :=
  match s.pop with
  | .err e s1 => .err e s1
  | .panic => .panic
  | .ok v s1 =>
    match v with
    | .Int n => .ok () (s1.push (.Float (n : ℚ)))
    | .Float q => .ok () (s1.push (.Float q))

/-- `Stack::dup` (lib.rs:143-155). -/
def Stack.dup (s : Stack) : OpRes Unit :=
  match s.pop with
  | .err e s1 => .err e s1
  | .panic => .panic
  | .ok v s1 => .ok () ((s1.push v).push v)

/-- `Stack::swap` (lib.rs:158-176): pops `x` then `y`, pushes `x` then `y`. -/
def Stack.swap (s : Stack) : OpRes Unit :=
  match s.pop with
  | .err e s1 => .err e s1
  | .panic => .panic
  | .ok x s1 =>
    match s1.pop with
    | .err e s2 => .err e s2
    | .panic => .panic
    | .ok y s2 => .ok () ((s2.push x).push y)

/-- `Stack::over` (lib.rs:179-198): pops `x` then `y`, pushes `y`, `x`, `y`. -/
def Stack.over (s : Stack) : OpRes Unit :=
  match s.pop with
  | .err e s1 => .err e s1
  | .panic => .panic
  | .ok x s1 =>
    match s1.pop with
    | .err e s2 => .err e s2
    | .panic => .panic
    | .ok y s2 => .ok () (((s2.push y).push x).push y)

/-- `Stack::add` (lib.rs:200-214): pushes `x + y`. -/
def Stack.add (s : Stack) : OpRes Unit :=
  match s.pop_two with
  | .err e s1 => .err e s1
  | .panic => .panic
  | .ok p s1 =>
    match p with
    | .Int x y => .ok () (s1.push (.Int (wrap64 (x + y))))
    | .Float x y => .ok () (s1.push (.Float (x + y)))

/-- `Stack::sub` (lib.rs:216-230): pushes `y - x`. -/
def Stack.sub (s : Stack) : OpRes Unit :=
  match s.pop_two with
  | .err e s1 => .err e s1
  | .panic => .panic
  | .ok p s1 =>
    match p with
    | .Int x y => .ok () (s1.push (.Int (wrap64 (y - x))))
    | .Float x y => .ok () (s1.push (.Float (y - x)))

/-- `Stack::mul` (lib.rs:232-246): pushes `y * x`. -/
def Stack.mul (s : Stack) : OpRes Unit :=
  match s.pop_two with
  | .err e s1 => .err e s1
  | .panic => .panic
  | .ok p s1 =>
    match p with
    | .Int x y => .ok () (s1.push (.Int (wrap64 (y * x))))
    | .Float x y => .ok () (s1.push (.Float (y * x)))

/-- `Stack::div` (lib.rs:248-262): pushes `y / x`; the Rust `i64`
division panics on a zero divisor and on `i64::MIN / -1`. -/
def Stack.div (s : Stack) : OpRes Unit :=
  match s.pop_two with
  | .err e s1 => .err e s1
  | .panic => .panic
  | .ok p s1 =>
    match p with
    | .Int x y =>
      if x = 0 ∨ (y = i64min ∧ x = -1) then .panic
      else .ok () (s1.push (.Int (Int.tdiv y x)))
    | .Float x y => .ok () (s1.push (.Float (y / x)))

/-- `Stack::modulus` (lib.rs:264-278): pushes `y % x`; the Rust `i64`
remainder panics on a zero divisor and on `i64::MIN % -1`. -/
def Stack.modulus (s : Stack) : OpRes Unit :=
  match s.pop_two with
  | .err e s1 => .err e s1
  | .panic => .panic
  | .ok p s1 =>
    match p with
    | .Int x y =>
      if x = 0 ∨ (y = i64min ∧ x = -1) then .panic
      else .ok () (s1.push (.Int (Int.tmod y x)))
    | .Float x y => .ok () (s1.push (.Float (fRem y x)))

/-- The extension point (`trait AtomExtender`, lib.rs:20-22): given the
raw opcode byte and the stack, run a host-defined instruction.  The
extenders used by the claims are stateless, so the capability is
modelled as a pure function. -/
def Extender : Type := ℕ → Stack → OpRes Unit

/-- `NullExtender` (lib.rs:24-29): rejects every opcode, leaving the
stack untouched. -/
def NullExtender : Extender := fun _ s => .err .InvalidInstruction s

/-- The mutable state of one `run` invocation: the caller-supplied
operand stack and memory, the program counter, and the run-local
return-address stack and literal accumulator (lib.rs:289-300). -/
structure VM where
  stack : Stack
  pc : ℕ
  rstack : List ℕ
  value : ℤ
  divider : ℚ
  memory : List Data
deriving DecidableEq, Repr

/-- Outcome of decoding and executing one opcode.  `halt` is the early
`return Ok(())` taken by the return opcode on an empty return-address
stack; `err` carries the reported `(pc, error)` pair together with the
state visible to the caller through its borrows. -/
inductive StepOut where
  | cont (s : VM)
  | halt (s : VM)
  | err (pc : ℕ) (e : Error) (s : VM)
  | panic
deriving DecidableEq, Repr

/-- Raw outcome of one dispatch before the error is stamped with the
program counter: `fail` carries the error kind and the state the caller
sees through its borrows. -/
inductive EOut where
  | cont (s : VM)
  | halt (s : VM)
  | fail (e : Error) (s : VM)
  | panic
deriving DecidableEq, Repr

/-- The dispatch of one opcode (the `match instruction` of lib.rs:306-495):
fetch the byte at `pc`, advance `pc` past it, dispatch.  The Rust `match`
on the opcode byte is written as a chain of disjoint equality tests. -/
def stepE (code : List ℕ) (ext : Extender) (s : VM) : EOut :=
  let instruction := code.getD s.pc 0
  let pc1 := s.pc + 1
  if instruction = 10 then .cont { s with pc := pc1 }
  else if instruction = 13 then .cont { s with pc := pc1 }
  else if instruction = 32 then .cont { s with pc := pc1 }
  else if instruction = 34 then
    .cont { s with
      pc := pc1
      stack := s.stack.push (.Float ((s.value : ℚ) / s.divider)) }
  else if instruction = 35 then .cont { s with pc := pc1, value := 0, divider := 1 }
  else if instruction = 36 then .cont { s with pc := pc1, value := wrap64 (-s.value) }
  else if instruction = 37 then
    match s.stack.modulus with
    | .ok _ st => .cont { s with pc := pc1, stack := st }
    | .err e st => .fail e { s with pc := pc1, stack := st }
    | .panic => .panic
  else if instruction = 39 then
    .cont { s with pc := pc1, stack := s.stack.push (.Int s.value) }
  else if instruction = 42 then
    match s.stack.mul with
    | .ok _ st => .cont { s with pc := pc1, stack := st }
    | .err e st => .fail e { s with pc := pc1, stack := st }
    | .panic => .panic
  else if instruction = 43 then
    match s.stack.add with
    | .ok _ st => .cont { s with pc := pc1, stack := st }
    | .err e st => .fail e { s with pc := pc1, stack := st }
    | .panic => .panic
  else if instruction = 45 then
    match s.stack.sub with
    | .ok _ st => .cont { s with pc := pc1, stack := st }
    | .err e st => .fail e { s with pc := pc1, stack := st }
    | .panic => .panic
  else if instruction = 46 then .cont { s with pc := pc1, divider := s.divider * 1000 }
  else if instruction = 47 then
    match s.stack.div with
    | .ok _ st => .cont { s with pc := pc1, stack := st }
    | .err e st => .fail e { s with pc := pc1, stack := st }
    | .panic => .panic
  else if 48 ≤ instruction ∧ instruction ≤ 57 then
    .cont { s with
      pc := pc1
      value := wrap64 (wrap64 (s.value * 10) + ((instruction : ℤ) - 48)) }
  else if instruction = 59 then
    match s.rstack with
    | [] => .halt { s with pc := pc1 }
    | home :: rs => .cont { s with pc := home, rstack := rs }
  else if instruction = 82 then
    match s.stack.pop with
    | .err e st => .fail e { s with pc := pc1, stack := st }
    | .panic => .panic
    | .ok v st =>
      match v with
      | .Float _ => .fail .TypeMismatch { s with pc := pc1, stack := st }
      | .Int n =>
        if s.memory.length = 0 then .panic
        else .cont { s with
               pc := pc1
               stack := st.push (s.memory.getD (toUsize n % s.memory.length)
                                  (.Int 0)) }
  else if instruction = 87 then
    match s.stack.pop with
    | .err e st => .fail e { s with pc := pc1, stack := st }
    | .panic => .panic
    | .ok address st =>
      match st.pop with
      | .err e st2 => .fail e { s with pc := pc1, stack := st2 }
      | .panic => .panic
      | .ok v st2 =>
        match address with
        | .Float _ => .fail .TypeMismatch { s with pc := pc1, stack := st2 }
        | .Int n =>
          if s.memory.length = 0 then .panic
          else .cont { s with
                 pc := pc1
                 stack := st2
                 memory := s.memory.set (toUsize n % s.memory.length) v }
  else if instruction = 98 then
    match s.stack.pop with
    | .err e st => .fail e { s with pc := pc1, stack := st }
    | .panic => .panic
    | .ok v st =>
      match v with
      | .Float _ => .fail .TypeMismatch { s with pc := pc1, stack := st }
      | .Int n => .cont { s with pc := toUsize n, stack := st }
  else if instruction = 99 then
    match s.stack.pop with
    | .err e st => .fail e { s with pc := pc1, stack := st }
    | .panic => .panic
    | .ok v st =>
      match v with
      | .Float _ => .fail .TypeMismatch { s with pc := pc1, stack := st }
      | .Int n => .cont { s with
                    pc := toUsize n
                    stack := st
                    rstack := pc1 :: s.rstack }
  else if instruction = 100 then
    match s.stack.dup with
    | .ok _ st => .cont { s with pc := pc1, stack := st }
    | .err e st => .fail e { s with pc := pc1, stack := st }
    | .panic => .panic
  else if instruction = 112 then
    match s.stack.pop with
    | .err e st => .fail e { s with pc := pc1, stack := st }
    | .panic => .panic
    | .ok _ st => .cont { s with pc := pc1, stack := st }
  else if instruction = 114 then
    match s.stack.pop with
    | .err e st => .fail e { s with pc := pc1, stack := st }
    | .panic => .panic
    | .ok _ st => .cont { s with pc := pc1, stack := st }
  else if instruction = 115 then
    match s.stack.swap with
    | .ok _ st => .cont { s with pc := pc1, stack := st }
    | .err e st => .fail e { s with pc := pc1, stack := st }
    | .panic => .panic
  else if instruction = 118 then
    match s.stack.over with
    | .ok _ st => .cont { s with pc := pc1, stack := st }
    | .err e st => .fail e { s with pc := pc1, stack := st }
    | .panic => .panic
  else if instruction = 121 then
    match s.stack.pop with
    | .err e st => .fail e { s with pc := pc1, stack := st }
    | .panic => .panic
    | .ok address st =>
      match st.pop with
      | .err e st2 => .fail e { s with pc := pc1, stack := st2 }
      | .panic => .panic
      | .ok d st2 =>
        match address with
        | .Float _ => .fail .TypeMismatch { s with pc := pc1, stack := st2 }
        | .Int n =>
          let condition : Bool :=
            match d with
            | .Float q => q != 0
            | .Int m => m != 0
          if condition then .cont { s with pc := toUsize n, stack := st2 }
          else .cont { s with pc := pc1, stack := st2 }
  else if instruction = 122 then
    match s.stack.pop with
    | .err e st => .fail e { s with pc := pc1, stack := st }
    | .panic => .panic
    | .ok address st =>
      match st.pop with
      | .err e st2 => .fail e { s with pc := pc1, stack := st2 }
      | .panic => .panic
      | .ok d st2 =>
        match address with
        | .Float _ => .fail .TypeMismatch { s with pc := pc1, stack := st2 }
        | .Int n =>
          let condition : Bool :=
            match d with
            | .Float q => q == 0
            | .Int m => m == 0
          if condition then .cont { s with pc := toUsize n, stack := st2 }
          else .cont { s with pc := pc1, stack := st2 }
  else
    match ext instruction s.stack with
    | .ok _ st => .cont { s with pc := pc1, stack := st }
    | .err e st => .fail e { s with pc := pc1, stack := st }
    | .panic => .panic

/-- One iteration of the interpreter loop (lib.rs:302-495): every
failure of the dispatch is reported as `(pc, error)` with `pc` as it
stands immediately after consuming the opcode byte (each Rust
`return Err((pc, n))` site uses the already-incremented `pc`). -/
def step (code : List ℕ) (ext : Extender) (s : VM) : StepOut :=
  match stepE code ext s with
  | .cont s1 => .cont s1
  | .halt s1 => .halt s1
  | .fail e sf => .err (s.pc + 1) e sf
  | .panic => .panic

/-- Outcome of a whole run.  `ok` carries the final state (the caller
keeps the stack and memory through its borrows); `timeout` is the
fuel-exhaustion artefact of the model, never a behavior of the code. -/
inductive RunOut where
  | ok (s : VM)
  | err (pc : ℕ) (e : Error) (s : VM)
  | panic
  | timeout
deriving DecidableEq, Repr

/-- The `while pc < code.len()` interpreter loop (lib.rs:302-498),
with explicit fuel for termination. -/
def runLoop (fuel : ℕ) (code : List ℕ) (ext : Extender) (s : VM) : RunOut :=
  match fuel with
  | 0 => .timeout
  | fuel + 1 =>
    if s.pc < code.length then
      match step code ext s with
      | .cont s1 => runLoop fuel code ext s1
      | .halt s1 => .ok s1
      | .err p e s1 => .err p e s1
      | .panic => .panic
    else .ok s

/-- `run` (lib.rs:289-500): starts the loop with an empty
return-address stack and a fresh literal accumulator
(`value = 0`, `divider = 1.0`). -/
def run (fuel : ℕ) (code : List ℕ) (ext : Extender) (stack : Stack)
    (pc : ℕ) (memory : List Data) : RunOut :=
  runLoop fuel code ext ⟨stack, pc, [], 0, 1, memory⟩

/-- Membership of the `i64` range. -/
def inI64 (n : ℤ) : Prop := i64min ≤ n ∧ n ≤ i64max

instance (n : ℤ) : Decidable (inI64 n) := by unfold inI64; infer_instance

/-- The opcode bytes handled by a built-in arm of the dispatch
(lib.rs:306-495); every other byte falls to the extension point. -/
def isBuiltin (b : ℕ) : Bool :=
  b == 10 || b == 13 || b == 32 || b == 34 || b == 35 || b == 36 || b == 37 ||
  b == 39 || b == 42 || b == 43 || b == 45 || b == 46 || b == 47 ||
  (48 ≤ b && b ≤ 57) || b == 59 || b == 82 || b == 87 || b == 98 || b == 99 ||
  b == 100 || b == 112 || b == 114 || b == 115 || b == 118 || b == 121 ||
  b == 122

/-- Values inside the `i64` range are fixed by the wrap-around. -/
theorem wrap64_eq_self {n : ℤ} (h : inI64 n) : wrap64 n = n := by
  obtain ⟨h1, h2⟩ := h
  unfold i64min at h1
  unfold i64max at h2
  unfold wrap64
  omega

/-- A nonnegative `i64` survives the `usize` cast unchanged. -/
theorem toUsize_eq_toNat {a : ℤ} (h0 : 0 ≤ a) (h1 : a ≤ i64max) :
    toUsize a = a.toNat := by
  unfold i64max at h1
  unfold toUsize
  omega

/-- Every error a single step reports carries the program counter as it
stands immediately after consuming the faulting opcode byte. -/
theorem step_err_pc {code : List ℕ} {ext : Extender} {s : VM} {p : ℕ}
    {e : Error} {sf : VM} (h : step code ext s = .err p e sf) :
    p = s.pc + 1 := by
  unfold step at h
  rcases hE : stepE code ext s
  all_goals rw [hE] at h
  all_goals cases h
  all_goals rfl

set_option maxHeartbeats 1000000 in
/-- A byte outside the built-in dispatch reaches the extension point;
with `NullExtender` the step fails with `InvalidInstruction` at the
already-advanced program counter. -/
theorem step_unknown {code : List ℕ} {s : VM} {b : ℕ}
    (hb : code.getD s.pc 0 = b) (hnb : isBuiltin b = false) :
    step code NullExtender s =
      .err (s.pc + 1) .InvalidInstruction { s with pc := s.pc + 1 } := by
  unfold step stepE
  rw [hb]
  repeat' split
  all_goals simp_all [isBuiltin, NullExtender]
  all_goals rename_i heq
  all_goals rw [if_neg (by omega)] at heq
  all_goals cases heq
  all_goals exact ⟨rfl, rfl⟩

/-- C4: `pop_two` never coerces between tags: on a stack whose top two
values are one `Int` and one `Float`, in either order, it fails with
`TypeMismatch`; on a same-tagged pair it returns the same-typed `Pair`
whose first component is the first-popped (top) value and whose second
component is the second-popped value. -/
theorem C4_pop_two_type_discipline (x y : ℤ) (p q : ℚ) (rest : Stack) :
    Stack.pop_two (Data.Int x :: Data.Float q :: rest) = .err .TypeMismatch rest ∧
    Stack.pop_two (Data.Float q :: Data.Int x :: rest) = .err .TypeMismatch rest ∧
    Stack.pop_two (Data.Int x :: Data.Int y :: rest) = .ok (Pair.Int x y) rest ∧
    Stack.pop_two (Data.Float p :: Data.Float q :: rest) = .ok (Pair.Float p q) rest :=
  ⟨rfl, rfl, rfl, rfl⟩

/-- C9: `pop_two` is not atomic on failure: on a one-element stack it
reports `StackUnderflow` having consumed the single element, and on a
mismatched-tag pair it reports `TypeMismatch` with both operands
removed; the binary arithmetic operations built on it fail the same
way, their operands already consumed. -/
theorem C9_pop_two_consumes_on_failure (v : Data) (x : ℤ) (q : ℚ) (rest : Stack) :
    Stack.pop_two [v] = .err .StackUnderflow [] ∧
    Stack.pop_two (Data.Int x :: Data.Float q :: rest) = .err .TypeMismatch rest ∧
    Stack.pop_two (Data.Float q :: Data.Int x :: rest) = .err .TypeMismatch rest ∧
    Stack.add [v] = .err .StackUnderflow [] ∧
    Stack.sub (Data.Int x :: Data.Float q :: rest) = .err .TypeMismatch rest ∧
    Stack.mul (Data.Float q :: Data.Int x :: rest) = .err .TypeMismatch rest ∧
    Stack.div (Data.Int x :: Data.Float q :: rest) = .err .TypeMismatch rest ∧
    Stack.modulus (Data.Float q :: Data.Int x :: rest) = .err .TypeMismatch rest :=
  ⟨rfl, rfl, rfl, rfl, rfl, rfl, rfl, rfl⟩

/-- C3: binary arithmetic operand order: with `x` the first-popped
(top) value and `y` the second-popped value, `sub` pushes `y - x`,
`div` pushes `y / x` (truncating on `Int`), `modulus` pushes `y % x`,
while the commutative `add` and `mul` push `x + y` and `x * y`.  The
`Int` clauses carry the range side conditions under which the wrapped
machine arithmetic agrees with the mathematical value. -/
theorem C3_arith_operand_order (x y : ℤ) (p q : ℚ) (rest : Stack)
    (hsub : inI64 (y - x)) (hadd : inI64 (x + y)) (hmul : inI64 (x * y))
    (hx0 : x ≠ 0) (hov : ¬(y = i64min ∧ x = -1)) :
    Stack.sub (Data.Int x :: Data.Int y :: rest) = .ok () (Data.Int (y - x) :: rest) ∧
    Stack.div (Data.Int x :: Data.Int y :: rest) = .ok () (Data.Int (Int.tdiv y x) :: rest) ∧
    Stack.modulus (Data.Int x :: Data.Int y :: rest) = .ok () (Data.Int (Int.tmod y x) :: rest) ∧
    Stack.add (Data.Int x :: Data.Int y :: rest) = .ok () (Data.Int (x + y) :: rest) ∧
    Stack.mul (Data.Int x :: Data.Int y :: rest) = .ok () (Data.Int (x * y) :: rest) ∧
    Stack.sub (Data.Float p :: Data.Float q :: rest) = .ok () (Data.Float (q - p) :: rest) ∧
    Stack.div (Data.Float p :: Data.Float q :: rest) = .ok () (Data.Float (q / p) :: rest) ∧
    Stack.modulus (Data.Float p :: Data.Float q :: rest) = .ok () (Data.Float (fRem q p) :: rest) ∧
    Stack.add (Data.Float p :: Data.Float q :: rest) = .ok () (Data.Float (p + q) :: rest) ∧
    Stack.mul (Data.Float p :: Data.Float q :: rest) = .ok () (Data.Float (p * q) :: rest) := by
  refine ⟨?_, ?_, ?_, ?_, ?_, rfl, rfl, rfl, ?_, ?_⟩
  · simp [Stack.sub, Stack.pop_two, Stack.push, wrap64_eq_self hsub]
  · simp [Stack.div, Stack.pop_two, Stack.push, hx0, hov]
  · simp [Stack.modulus, Stack.pop_two, Stack.push, hx0, hov]
  · simp [Stack.add, Stack.pop_two, Stack.push, wrap64_eq_self hadd]
  · have hyx : wrap64 (y * x) = x * y := by rw [mul_comm]; exact wrap64_eq_self hmul
    simp [Stack.mul, Stack.pop_two, Stack.push, hyx]
  · simp [Stack.add, Stack.pop_two, Stack.push, add_comm]
  · simp [Stack.mul, Stack.pop_two, Stack.push, mul_comm]

/-- C3 witness at a concrete input. -/
theorem C3_arith_operand_order_witness :
    Stack.sub [Data.Int 2, Data.Int (-7)] = .ok () [Data.Int (-9)] ∧
    Stack.div [Data.Int 2, Data.Int (-7)] = .ok () [Data.Int (-3)] ∧
    Stack.modulus [Data.Int 2, Data.Int (-7)] = .ok () [Data.Int (-1)] ∧
    Stack.add [Data.Int 2, Data.Int (-7)] = .ok () [Data.Int (-5)] ∧
    Stack.mul [Data.Int 2, Data.Int (-7)] = .ok () [Data.Int (-14)] ∧
    Stack.sub [Data.Float (1/2), Data.Float 3] = .ok () [Data.Float (5/2)] ∧
    Stack.div [Data.Float (1/2), Data.Float 3] = .ok () [Data.Float 6] ∧
    Stack.modulus [Data.Float (1/2), Data.Float 3] = .ok () [Data.Float (fRem 3 (1/2))] ∧
    Stack.add [Data.Float (1/2), Data.Float 3] = .ok () [Data.Float (7/2)] ∧
    Stack.mul [Data.Float (1/2), Data.Float 3] = .ok () [Data.Float (3/2)] := by
  have h := C3_arith_operand_order 2 (-7) (1/2) 3 []
    (by decide) (by decide) (by decide) (by decide) (by decide)
  norm_num at h ⊢
  exact h

/-- C6: integer `div` and `modulus` use truncating semantics (witnessed
by `-7 / 2 = -3` and `-7 % 2 = -1`, rounding toward zero), and on an
`Int(0)` divisor both abort with a Rust panic rather than returning an
error `Result`; the behavior is identical for the two operations. -/
theorem C6_div_modulus_zero_divisor_panic (x y : ℤ) (rest : Stack) (hx : x = 0) :
    Stack.div (Data.Int x :: Data.Int y :: rest) = .panic ∧
    Stack.modulus (Data.Int x :: Data.Int y :: rest) = .panic ∧
    Stack.div [Data.Int 2, Data.Int (-7)] = .ok () [Data.Int (-3)] ∧
    Stack.modulus [Data.Int 2, Data.Int (-7)] = .ok () [Data.Int (-1)] := by
  subst hx
  refine ⟨?_, ?_, by decide, by decide⟩
  · simp [Stack.div, Stack.pop_two]
  · simp [Stack.modulus, Stack.pop_two]

/-- C6 witness at a concrete input. -/
theorem C6_div_modulus_zero_divisor_panic_witness :
    Stack.div [Data.Int 0, Data.Int 5] = .panic ∧
    Stack.modulus [Data.Int 0, Data.Int 5] = .panic :=
  ⟨(C6_div_modulus_zero_divisor_panic 0 5 [] rfl).1,
   (C6_div_modulus_zero_divisor_panic 0 5 [] rfl).2.1⟩

/-- C5: a return opcode (byte 59) executed with an empty return-address
stack makes `run` return `Ok` immediately, the permissive end-of-program
interpretation; no `ReturnStackUnderflow` kind exists in the error type,
so no such error can ever be returned. -/
theorem C5_return_empty_rstack_ok (fuel : ℕ) (code : List ℕ) (ext : Extender)
    (s : VM) (hpc : s.pc < code.length) (hb : code.getD s.pc 0 = 59)
    (hr : s.rstack = []) :
    runLoop (fuel + 1) code ext s = .ok { s with pc := s.pc + 1 } ∧
    ∀ e : Error, e = .StackUnderflow ∨ e = .TypeMismatch ∨ e = .InvalidInstruction := by
  constructor
  · have hs : step code ext s = .halt { s with pc := s.pc + 1 } := by
      unfold step stepE
      rw [hb, hr]
      simp
    rw [runLoop, if_pos hpc, hs]
  · intro e
    cases e
    · exact Or.inl rfl
    · exact Or.inr (Or.inl rfl)
    · exact Or.inr (Or.inr rfl)

/-- C5 witness at a concrete input. -/
theorem C5_return_empty_rstack_ok_witness :
    runLoop 1 [59] NullExtender ⟨[], 0, [], 0, 1, []⟩ =
      .ok ⟨[], 1, [], 0, 1, []⟩ :=
  (C5_return_empty_rstack_ok 0 [59] NullExtender ⟨[], 0, [], 0, 1, []⟩
    (by decide) rfl rfl).1

set_option maxRecDepth 10000 in
/-- C1: the call opcode (byte 99) at position `p` with `Int a` on top
removes it, pushes the already-advanced `p + 1` onto the return-address
stack and sets `pc` to `a`; a return opcode (byte 59) finding `p + 1`
on top of the return-address stack pops it and sets `pc` to `p + 1`, so
execution resumes exactly one byte past the call site (demonstrated
end-to-end by the concrete program); call with a `Float` on top fails
with `TypeMismatch`. -/
theorem C1_call_return_roundtrip (code : List ℕ) (ext : Extender)
    (s t : VM) (a : ℤ) (rest : Stack) (rs : List ℕ) (f : ℚ)
    (hc : code.getD s.pc 0 = 99) (hst : s.stack = Data.Int a :: rest)
    (ha : 0 ≤ a) (hamax : a ≤ i64max)
    (hr : code.getD t.pc 0 = 59) (hts : t.rstack = (s.pc + 1) :: rs) :
    step code ext s = .cont { s with
      stack := rest
      pc := a.toNat
      rstack := (s.pc + 1) :: s.rstack } ∧
    step code ext t = .cont { t with pc := s.pc + 1, rstack := rs } ∧
    (∀ u : VM, u.pc = s.pc → u.stack = Data.Float f :: rest →
      step code ext u =
        .err (s.pc + 1) .TypeMismatch { u with pc := s.pc + 1, stack := rest }) ∧
    run 8 [35, 53, 39, 99, 39, 59] NullExtender [] 0 [] =
      .ok ⟨[Data.Int 5], 6, [], 5, 1, []⟩ := by
  refine ⟨?_, ?_, ?_, by decide⟩
  · unfold step stepE
    rw [hc, hst]
    simp [Stack.pop, toUsize_eq_toNat ha hamax]
  · unfold step stepE
    rw [hr, hts]
    simp
  · intro u hupc hust
    unfold step stepE
    rw [hupc, hc, hust]
    simp [Stack.pop]

set_option maxRecDepth 10000 in
/-- C1 witness at a concrete input. -/
theorem C1_call_return_roundtrip_witness :
    step [99, 59] NullExtender ⟨[Data.Int 0], 0, [], 0, 1, []⟩ =
      .cont ⟨[], 0, [1], 0, 1, []⟩ ∧
    step [99, 59] NullExtender ⟨[], 1, [1], 0, 1, []⟩ =
      .cont ⟨[], 1, [], 0, 1, []⟩ ∧
    step [99, 59] NullExtender ⟨[Data.Float (1/2)], 0, [], 0, 1, []⟩ =
      .err 1 .TypeMismatch ⟨[], 1, [], 0, 1, []⟩ ∧
    run 8 [35, 53, 39, 99, 39, 59] NullExtender [] 0 [] =
      .ok ⟨[Data.Int 5], 6, [], 5, 1, []⟩ := by
  have h := C1_call_return_roundtrip [99, 59] NullExtender
    ⟨[Data.Int 0], 0, [], 0, 1, []⟩ ⟨[], 1, [1], 0, 1, []⟩ 0 [] [] (1/2)
    rfl rfl (by decide) (by decide) rfl rfl
  exact ⟨h.1, h.2.1, h.2.2.1 ⟨[Data.Float (1/2)], 0, [], 0, 1, []⟩ rfl rfl, h.2.2.2⟩

set_option maxRecDepth 10000 in
/-- C7: the reset opcode (byte 35) sets `value = 0` and `divider = 1`;
each digit opcode `d` (bytes 48-57) updates `value = value * 10 +
(d - 48)` (stated under the range conditions where the machine
arithmetic is exact); the push-as-integer opcode (byte 39) pushes
`Int(value)` leaving the accumulator untouched; and the program
`"#12'"` leaves `Int 12` on top of the stack. -/
theorem C7_literal_accumulator (code : List ℕ) (ext : Extender) (s : VM) (d : ℕ) :
    (code.getD s.pc 0 = 35 →
      step code ext s = .cont { s with pc := s.pc + 1, value := 0, divider := 1 }) ∧
    (code.getD s.pc 0 = d → 48 ≤ d → d ≤ 57 → inI64 (s.value * 10) →
      inI64 (s.value * 10 + ((d : ℤ) - 48)) →
      step code ext s = .cont { s with
        pc := s.pc + 1
        value := s.value * 10 + ((d : ℤ) - 48) }) ∧
    (code.getD s.pc 0 = 39 →
      step code ext s = .cont { s with
        pc := s.pc + 1
        stack := Data.Int s.value :: s.stack }) ∧
    run 5 [35, 49, 50, 39] NullExtender [] 0 [] =
      .ok ⟨[Data.Int 12], 4, [], 12, 1, []⟩ := by
  refine ⟨?_, ?_, ?_, by decide⟩
  · intro hb
    unfold step stepE
    rw [hb]
    simp
  · intro hb h48 h57 hten hacc
    unfold step stepE
    rw [hb]
    have hne : ∀ c : ℕ, c < 48 → ¬(d = c) := fun c hc => by omega
    rw [if_neg (hne 10 (by norm_num)), if_neg (hne 13 (by norm_num)),
        if_neg (hne 32 (by norm_num)), if_neg (hne 34 (by norm_num)),
        if_neg (hne 35 (by norm_num)), if_neg (hne 36 (by norm_num)),
        if_neg (hne 37 (by norm_num)), if_neg (hne 39 (by norm_num)),
        if_neg (hne 42 (by norm_num)), if_neg (hne 43 (by norm_num)),
        if_neg (hne 45 (by norm_num)), if_neg (hne 46 (by norm_num)),
        if_neg (hne 47 (by norm_num)), if_pos ⟨h48, h57⟩]
    rw [wrap64_eq_self hten, wrap64_eq_self hacc]
  · intro hb
    unfold step stepE
    rw [hb]
    simp [Stack.push]

set_option maxRecDepth 10000 in
/-- C7 witness at a concrete input. -/
theorem C7_literal_accumulator_witness :
    step [35, 49, 50, 39] NullExtender ⟨[], 0, [], 7, 5, []⟩ =
      .cont ⟨[], 1, [], 0, 1, []⟩ ∧
    step [35, 49, 50, 39] NullExtender ⟨[], 1, [], 0, 1, []⟩ =
      .cont ⟨[], 2, [], 0 * 10 + ((49 : ℤ) - 48), 1, []⟩ ∧
    step [35, 49, 50, 39] NullExtender ⟨[], 3, [], 12, 1, []⟩ =
      .cont ⟨[Data.Int 12], 4, [], 12, 1, []⟩ ∧
    run 5 [35, 49, 50, 39] NullExtender [] 0 [] =
      .ok ⟨[Data.Int 12], 4, [], 12, 1, []⟩ := by
  refine ⟨(C7_literal_accumulator [35, 49, 50, 39] NullExtender
            ⟨[], 0, [], 7, 5, []⟩ 0).1 rfl,
          (C7_literal_accumulator [35, 49, 50, 39] NullExtender
            ⟨[], 1, [], 0, 1, []⟩ 49).2.1 rfl (by decide) (by decide)
            (by decide) (by decide),
          (C7_literal_accumulator [35, 49, 50, 39] NullExtender
            ⟨[], 3, [], 12, 1, []⟩ 0).2.2.1 rfl,
          (C7_literal_accumulator [35, 49, 50, 39] NullExtender
            ⟨[], 0, [], 0, 1, []⟩ 0).2.2.2⟩

set_option maxRecDepth 40000 in
/-- C8 counterexample: with memory length 3 and address `-1`, the read
opcode pushes `memory[0]` — the `usize` cast wraps the address through
two's complement and `(2^64 - 1) mod 3 = 0` — not `memory[(-1) mod 3]
= memory[2]` as the mathematical reading of "a mod L" demands. -/
theorem C8_negative_address_counterexample :
    run 2 [82] NullExtender [Data.Int (-1)] 0
        [Data.Int 10, Data.Int 20, Data.Int 30] =
      .ok ⟨[Data.Int 10], 1, [], 0, 1, [Data.Int 10, Data.Int 20, Data.Int 30]⟩ ∧
    ((-1 : ℤ) % 3).toNat = 2 ∧
    [Data.Int 10, Data.Int 20, Data.Int 30].getD 2 (Data.Int 0) = Data.Int 30 ∧
    Data.Int 10 ≠ Data.Int 30 := by
  refine ⟨by decide, by decide, by decide, by decide⟩

set_option maxRecDepth 40000 in
/-- C8 amended: the memory opcodes use the effective index
`(a as usize) mod L`; for a nonnegative in-range address `a` this is
the mathematical `a mod L`: read pops `Int a` and pushes
`memory[a mod L]` (failing `TypeMismatch` on a `Float` address), write
pops `Int a` then a value and stores it at `a mod L`; with a memory of
length 4, writing at address 7 and then reading at address 3 yields
the written value. -/
theorem C8_memory_modular_addressing (code : List ℕ) (ext : Extender)
    (s : VM) (a : ℤ) (v : Data) (rest : Stack) (f : ℚ)
    (hmem : s.memory.length ≠ 0) (ha : 0 ≤ a) (hamax : a ≤ i64max) :
    (code.getD s.pc 0 = 82 → s.stack = Data.Int a :: rest →
      step code ext s = .cont { s with
        pc := s.pc + 1
        stack := s.memory.getD (a.toNat % s.memory.length) (Data.Int 0) :: rest }) ∧
    (code.getD s.pc 0 = 82 → s.stack = Data.Float f :: rest →
      step code ext s =
        .err (s.pc + 1) .TypeMismatch { s with pc := s.pc + 1, stack := rest }) ∧
    (code.getD s.pc 0 = 87 → s.stack = Data.Int a :: v :: rest →
      step code ext s = .cont { s with
        pc := s.pc + 1
        stack := rest
        memory := s.memory.set (a.toNat % s.memory.length) v }) ∧
    run 6 [87, 35, 51, 39, 82] NullExtender [Data.Int 7, Data.Int 42] 0
        [Data.Int 0, Data.Int 0, Data.Int 0, Data.Int 0] =
      .ok ⟨[Data.Int 42], 5, [], 3, 1,
           [Data.Int 0, Data.Int 0, Data.Int 0, Data.Int 42]⟩ := by
  refine ⟨?_, ?_, ?_, by decide⟩
  · intro hb hst
    unfold step stepE
    rw [hb, hst]
    simp [Stack.pop, Stack.push, hmem, toUsize_eq_toNat ha hamax]
  · intro hb hst
    unfold step stepE
    rw [hb, hst]
    simp [Stack.pop]
  · intro hb hst
    unfold step stepE
    rw [hb, hst]
    simp [Stack.pop, hmem, toUsize_eq_toNat ha hamax]

set_option maxRecDepth 40000 in
/-- C8 witness at a concrete input. -/
theorem C8_memory_modular_addressing_witness :
    step [82] NullExtender ⟨[Data.Int 5], 0, [], 0, 1, [Data.Int 1, Data.Int 2]⟩ =
      .cont ⟨[Data.Int 2], 1, [], 0, 1, [Data.Int 1, Data.Int 2]⟩ ∧
    step [82] NullExtender ⟨[Data.Float (1/2)], 0, [], 0, 1, [Data.Int 1]⟩ =
      .err 1 .TypeMismatch ⟨[], 1, [], 0, 1, [Data.Int 1]⟩ ∧
    step [87] NullExtender
        ⟨[Data.Int 5, Data.Int 9], 0, [], 0, 1, [Data.Int 1, Data.Int 2]⟩ =
      .cont ⟨[], 1, [], 0, 1, [Data.Int 1, Data.Int 9]⟩ ∧
    run 6 [87, 35, 51, 39, 82] NullExtender [Data.Int 7, Data.Int 42] 0
        [Data.Int 0, Data.Int 0, Data.Int 0, Data.Int 0] =
      .ok ⟨[Data.Int 42], 5, [], 3, 1,
           [Data.Int 0, Data.Int 0, Data.Int 0, Data.Int 42]⟩ := by
  refine ⟨(C8_memory_modular_addressing [82] NullExtender
            ⟨[Data.Int 5], 0, [], 0, 1, [Data.Int 1, Data.Int 2]⟩ 5 (Data.Int 0)
            [] 0 (by decide) (by decide) (by decide)).1 rfl rfl,
          (C8_memory_modular_addressing [82] NullExtender
            ⟨[Data.Float (1/2)], 0, [], 0, 1, [Data.Int 1]⟩ 0 (Data.Int 0)
            [] (1/2) (by decide) (by decide) (by decide)).2.1 rfl rfl,
          (C8_memory_modular_addressing [87] NullExtender
            ⟨[Data.Int 5, Data.Int 9], 0, [], 0, 1, [Data.Int 1, Data.Int 2]⟩ 5
            (Data.Int 9) [] 0 (by decide) (by decide) (by decide)).2.2.1 rfl rfl,
          (C8_memory_modular_addressing [82] NullExtender
            ⟨[Data.Int 5], 0, [], 0, 1, [Data.Int 1]⟩ 5 (Data.Int 0)
            [] 0 (by decide) (by decide) (by decide)).2.2.2⟩

/-- C10: setting `pc` at or beyond the program length via branch
(byte 98), call (byte 99) or the conditional jumps (bytes 121/122
when taken) makes the loop condition fail on the next iteration and
`run` return `Ok`; every negative in-range address converts through
two's complement to a value of at least `2^63`, hence beyond any
program shorter than that, so it too ends the run successfully. -/
theorem C10_out_of_range_jump_returns_ok (fuel : ℕ) (code : List ℕ)
    (ext : Extender) (s : VM) (a m : ℤ) (rest : Stack) :
    (s.pc < code.length → code.getD s.pc 0 = 98 → s.stack = Data.Int a :: rest →
      code.length ≤ toUsize a →
      runLoop (fuel + 2) code ext s = .ok { s with pc := toUsize a, stack := rest }) ∧
    (s.pc < code.length → code.getD s.pc 0 = 99 → s.stack = Data.Int a :: rest →
      code.length ≤ toUsize a →
      runLoop (fuel + 2) code ext s = .ok { s with
        pc := toUsize a
        stack := rest
        rstack := (s.pc + 1) :: s.rstack }) ∧
    (s.pc < code.length → code.getD s.pc 0 = 121 →
      s.stack = Data.Int a :: Data.Int m :: rest → m ≠ 0 →
      code.length ≤ toUsize a →
      runLoop (fuel + 2) code ext s = .ok { s with pc := toUsize a, stack := rest }) ∧
    (s.pc < code.length → code.getD s.pc 0 = 122 →
      s.stack = Data.Int a :: Data.Int 0 :: rest →
      code.length ≤ toUsize a →
      runLoop (fuel + 2) code ext s = .ok { s with pc := toUsize a, stack := rest }) ∧
    (a < 0 → i64min ≤ a → code.length ≤ 2 ^ 63 → code.length ≤ toUsize a) := by
  refine ⟨?_, ?_, ?_, ?_, ?_⟩
  · intro hlt hb hst hge
    have hs : step code ext s = .cont { s with pc := toUsize a, stack := rest } := by
      unfold step stepE
      rw [hb, hst]
      simp [Stack.pop]
    rw [runLoop, if_pos hlt, hs]
    simp [runLoop, Nat.not_lt.mpr hge]
  · intro hlt hb hst hge
    have hs : step code ext s = .cont { s with
        pc := toUsize a
        stack := rest
        rstack := (s.pc + 1) :: s.rstack } := by
      unfold step stepE
      rw [hb, hst]
      simp [Stack.pop]
    rw [runLoop, if_pos hlt, hs]
    simp [runLoop, Nat.not_lt.mpr hge]
  · intro hlt hb hst hm hge
    have hs : step code ext s = .cont { s with pc := toUsize a, stack := rest } := by
      unfold step stepE
      rw [hb, hst]
      simp [Stack.pop, hm]
    rw [runLoop, if_pos hlt, hs]
    simp [runLoop, Nat.not_lt.mpr hge]
  · intro hlt hb hst hge
    have hs : step code ext s = .cont { s with pc := toUsize a, stack := rest } := by
      unfold step stepE
      rw [hb, hst]
      simp [Stack.pop]
    rw [runLoop, if_pos hlt, hs]
    simp [runLoop, Nat.not_lt.mpr hge]
  · intro hneg hmin hlen
    unfold toUsize
    unfold i64min at hmin
    omega

/-- C10 witness at a concrete input. -/
theorem C10_out_of_range_jump_returns_ok_witness :
    runLoop 2 [98] NullExtender ⟨[Data.Int 5], 0, [], 0, 1, []⟩ =
      .ok ⟨[], toUsize 5, [], 0, 1, []⟩ ∧
    runLoop 2 [99] NullExtender ⟨[Data.Int 5], 0, [], 0, 1, []⟩ =
      .ok ⟨[], toUsize 5, [1], 0, 1, []⟩ ∧
    runLoop 2 [121] NullExtender ⟨[Data.Int 5, Data.Int 3], 0, [], 0, 1, []⟩ =
      .ok ⟨[], toUsize 5, [], 0, 1, []⟩ ∧
    runLoop 2 [122] NullExtender ⟨[Data.Int 5, Data.Int 0], 0, [], 0, 1, []⟩ =
      .ok ⟨[], toUsize 5, [], 0, 1, []⟩ ∧
    (1 : ℕ) ≤ toUsize (-1) := by
  refine ⟨(C10_out_of_range_jump_returns_ok 0 [98] NullExtender
            ⟨[Data.Int 5], 0, [], 0, 1, []⟩ 5 0 []).1
            (by decide) rfl rfl (by decide),
          (C10_out_of_range_jump_returns_ok 0 [99] NullExtender
            ⟨[Data.Int 5], 0, [], 0, 1, []⟩ 5 0 []).2.1
            (by decide) rfl rfl (by decide),
          (C10_out_of_range_jump_returns_ok 0 [121] NullExtender
            ⟨[Data.Int 5, Data.Int 3], 0, [], 0, 1, []⟩ 5 3 []).2.2.1
            (by decide) rfl rfl (by decide) (by decide),
          (C10_out_of_range_jump_returns_ok 0 [122] NullExtender
            ⟨[Data.Int 5, Data.Int 0], 0, [], 0, 1, []⟩ 5 0 []).2.2.2.1
            (by decide) rfl rfl (by decide),
          (C10_out_of_range_jump_returns_ok 0 [98] NullExtender
            ⟨[Data.Int 5], 0, [], 0, 1, []⟩ (-1) 0 []).2.2.2.2
            (by decide) (by decide) (by decide)⟩

/-- C2: every failure of the loop reports the pair `(pc, kind)` where
`pc` is the program counter immediately after the faulting opcode byte
— concretely, any error outcome of `runLoop` is the error of a step
from some state `s1` with reported `pc = s1.pc + 1` — and a byte
matched by no built-in case fails under the default `NullExtender`
with `InvalidInstruction` at the position immediately after it. -/
theorem C2_error_pc_reporting (fuel : ℕ) (code : List ℕ) (ext : Extender)
    (s : VM) (p : ℕ) (e : Error) (sf : VM) (b : ℕ) :
    (runLoop fuel code ext s = .err p e sf →
      ∃ s1 : VM, s1.pc < code.length ∧ step code ext s1 = .err p e sf ∧
        p = s1.pc + 1) ∧
    (s.pc < code.length → code.getD s.pc 0 = b → isBuiltin b = false →
      runLoop (fuel + 1) code NullExtender s =
        .err (s.pc + 1) .InvalidInstruction { s with pc := s.pc + 1 }) := by
  constructor
  · induction fuel generalizing s with
    | zero =>
      intro h
      cases h
    | succ n ih =>
      intro h
      rw [runLoop] at h
      by_cases hlt : s.pc < code.length
      · rw [if_pos hlt] at h
        cases hE : step code ext s with
        | cont s1 =>
          rw [hE] at h
          exact ih s1 h
        | halt s1 =>
          rw [hE] at h
          cases h
        | err p1 e1 s1 =>
          rw [hE] at h
          injection h with h1 h2 h3
          subst h1
          subst h2
          subst h3
          exact ⟨s, hlt, hE, step_err_pc hE⟩
        | panic =>
          rw [hE] at h
          cases h
      · rw [if_neg hlt] at h
        cases h
  · intro hlt hb hnb
    rw [runLoop, if_pos hlt, step_unknown hb hnb]

/-- C2 witness at a concrete input. -/
theorem C2_error_pc_reporting_witness :
    runLoop 1 [7] NullExtender ⟨[], 0, [], 0, 1, []⟩ =
      .err 1 .InvalidInstruction ⟨[], 1, [], 0, 1, []⟩ :=
  (C2_error_pc_reporting 0 [7] NullExtender ⟨[], 0, [], 0, 1, []⟩ 1
    .InvalidInstruction ⟨[], 1, [], 0, 1, []⟩ 7).2 (by decide) rfl (by decide)
